import Mathlib

/-!
Verification of the chatbot orchestration layer (`backend/chatbot_orchestrator.py`)
against its natural-language specification.

The Python source is shallowly embedded: the in-memory session store becomes an
association list of sessions, dictionary payloads become Lean structures, the
lead-persistence side effect becomes an explicit list of saved leads threaded
through an `OrchState`, and the `re` patterns used for handoff / transactional
intent detection are embedded as data for a small executable matcher covering
exactly the regex constructs those patterns use (literals, alternation,
optional groups, one-or-more whitespace, and word boundaries).

Nondeterministic inputs of the source are made explicit parameters:
`uuid` stands for `str(uuid.uuid4())` (a 36-character string), `now` for
`datetime.now().isoformat()`, and `kbResp` for the text returned by the external
AI-generation collaborator.
-/

set_option maxRecDepth 4096

namespace Insta

/-- Python `str.lower` restricted to the ASCII case mapping used by the inputs here. -/
def pyLower (s : String) : String :=
  String.mk (s.data.map Char.toLower)

/-- Python whitespace class (`\s` and the characters removed by `str.strip`). -/
def isPySpace (c : Char) : Bool :=
  c = ' ' || c = '\t' || c = '\n' || c = '\r' || c = '\x0b' || c = '\x0c'

/-- Python `str.strip`: remove leading and trailing whitespace. -/
def pyStrip (s : String) : String :=
  String.mk (((s.data.dropWhile isPySpace).reverse.dropWhile isPySpace).reverse)

/-- Python `str(u)[:8].upper()` as used for ticket ids. -/
def pySlice8Upper (s : String) : String :=
  String.mk ((s.data.take 8).map Char.toUpper)

/-- Python substring test `needle in hay` on character lists. -/
def subElem (needle : List Char) : List Char → Bool
  | [] => needle.isEmpty
  | c :: rest => needle.isPrefixOf (c :: rest) || subElem needle rest

/-- Python substring test `needle in hay` on strings. -/
def containsSub (needle hay : String) : Bool :=
  subElem needle.data hay.data

/-- Python `s.startswith(pre)` (used for state-tag prefix dispatch). -/
def pyStartsWith (s pre : String) : Bool :=
  pre.data.isPrefixOf s.data

/-- Regex `\w` (word character) for word-boundary tests. -/
def isWordChar (c : Char) : Bool :=
  c.isAlphanum || c = '_'

/-- The regex fragment grammar actually used by the orchestrator's patterns:
literal text, a word boundary `\b`, one-or-more whitespace `\s+`,
concatenation, alternation `(..|..)` and an optional group `(..)?`. -/
inductive Pat where
  | lit : String → Pat
  | wb : Pat
  | sp : Pat
  | seq : Pat → Pat → Pat
  | alt : Pat → Pat → Pat
  | opt : Pat → Pat
deriving Repr

/-- Match a literal case-insensitively, returning the last consumed character
and the remaining input on success. -/
def litAccept : List Char → Option Char → List Char → Option (Option Char × List Char)
  | [], prev, input => some (prev, input)
  | c :: cs, _prev, input =>
    match input with
    | [] => none
    | d :: ds => if d.toLower = c.toLower then litAccept cs (some d) ds else none

/-- All ways to consume one or more whitespace characters (`\s+`). -/
def spAccept : List Char → List (Option Char × List Char)
  | [] => []
  | c :: cs => if isPySpace c then (some c, cs) :: spAccept cs else []

/-- A `\b` word boundary holds between `prev` and the head of the input. -/
def atBoundary (prev : Option Char) (input : List Char) : Bool :=
  let pw := match prev with | some c => isWordChar c | none => false
  let nw := match input with | c :: _ => isWordChar c | [] => false
  pw != nw

/-- All `(last consumed char, remaining input)` pairs after matching a pattern
at the current position. -/
def Pat.accept : Pat → Option Char → List Char → List (Option Char × List Char)
  | .lit s, prev, input =>
    match litAccept s.data prev input with
    | some r => [r]
    | none => []
  | .wb, prev, input => if atBoundary prev input then [(prev, input)] else []
  | .sp, _prev, input => spAccept input
  | .seq p q, prev, input => (p.accept prev input).flatMap (fun r => q.accept r.1 r.2)
  | .alt p q, prev, input => p.accept prev input ++ q.accept prev input
  | .opt p, prev, input => (prev, input) :: p.accept prev input

/-- `re.search` semantics: does the pattern match starting at any position? -/
def searchFrom (p : Pat) : Option Char → List Char → Bool
  | prev, [] => !(p.accept prev []).isEmpty
  | prev, c :: cs => !(p.accept prev (c :: cs)).isEmpty || searchFrom p (some c) cs

/-- `re.search(p, s)` returning whether a match exists. -/
def reSearch (p : Pat) (s : String) : Bool :=
  searchFrom p none s.data

/-- Alternation of a nonempty list of branch patterns. -/
def alts : List Pat → Pat
  | [] => .lit ""
  | [p] => p
  | p :: ps => .alt p (alts ps)

/-- Concatenation of a list of patterns. -/
def seqs : List Pat → Pat
  | [] => .lit ""
  | [p] => p
  | p :: ps => .seq p (seqs ps)

/-- `handoff_patterns` from `ChatbotOrchestrator.__init__`, transliterated
pattern by pattern. -/
def handoff_patterns : List Pat :=
  [ seqs [.wb, alts [.lit "speak", .lit "talk"], .sp, .lit "to", .sp,
      .opt (seqs [.lit "a", .sp]),
      alts [.lit "human", .lit "person", .lit "agent", .lit "representative"], .wb],
    seqs [.wb, .lit "connect", .sp, .lit "me", .sp, .lit "to", .sp,
      alts [.lit "support", .lit "human", .lit "agent", .lit "someone"], .wb],
    seqs [.wb, alts [.lit "urgent", .lit "emergency", .lit "critical"], .sp,
      alts [.lit "issue", .lit "problem", .lit "matter"], .wb],
    seqs [.wb, .lit "need", .sp, alts [.lit "immediate", .lit "urgent"], .sp, .lit "help", .wb],
    seqs [.wb, .lit "escalate", .wb],
    seqs [.wb, .lit "human", .sp, alts [.lit "agent", .lit "support"], .wb] ]

/-- `transactional_patterns` from `ChatbotOrchestrator.__init__`: the intent
mapping in its (insertion-ordered) dictionary order. -/
def transactional_patterns : List (String × List Pat) :=
  [ ("request_demo",
     [ seqs [.wb,
         alts [.lit "book", .lit "request", .lit "schedule", .lit "want", .lit "need", .lit "get"],
         .sp, .opt (seqs [.lit "a", .sp]),
         alts [.lit "demo", .lit "demonstration", .lit "poc", .lit "proof of concept"], .wb],
       seqs [.wb, .lit "show", .sp, .lit "me", .sp, .opt (seqs [.lit "a", .sp]), .lit "demo", .wb],
       seqs [.wb, .lit "can", .sp, .lit "i", .sp, alts [.lit "see", .lit "get", .lit "have"],
         .sp, .opt (seqs [.lit "a", .sp]), .lit "demo", .wb] ]),
    ("request_career",
     [ seqs [.wb, alts [.lit "apply", .lit "submit", .lit "upload", .lit "send"], .sp,
         .opt (seqs [.lit "my", .sp]), alts [.lit "resume", .lit "cv", .lit "application"], .wb],
       seqs [.wb, .opt (seqs [.lit "are", .sp, .lit "you", .sp]), .lit "hiring", .wb],
       seqs [.wb, .lit "job", .sp,
         alts [.lit "opening", .lit "opportunity", .lit "application", .lit "position"], .wb],
       seqs [.wb, .lit "career", .sp, alts [.lit "opportunity", .lit "page"], .wb],
       seqs [.wb, .lit "how", .sp, alts [.lit "do", .lit "can"], .sp, .lit "i", .sp,
         .lit "apply", .wb] ]),
    ("upload_rfp",
     [ seqs [.wb, alts [.lit "upload", .lit "submit", .lit "send", .lit "share"], .sp,
         .opt (alts [seqs [.lit "an", .sp], seqs [.lit "my", .sp], seqs [.lit "our", .sp]]),
         .lit "rfp", .wb],
       seqs [.wb, alts [.lit "have", .lit "got"], .sp, .opt (seqs [.lit "an", .sp]),
         .lit "rfp", .wb],
       seqs [.wb, .lit "proposal", .sp, .lit "request", .wb],
       seqs [.wb, .lit "request", .sp, .lit "for", .sp, .lit "proposal", .wb] ]),
    ("request_contact",
     [ seqs [.wb,
         alts [.lit "contact", .lit "call", seqs [.lit "speak", .sp, .lit "to"],
           seqs [.lit "talk", .sp, .lit "to"]],
         .sp, alts [.lit "sales", .lit "team", .lit "someone"], .wb],
       seqs [.wb, .lit "schedule", .sp, .opt (seqs [.lit "a", .sp]),
         alts [.lit "call", .lit "meeting"], .wb],
       seqs [.wb, .lit "get", .sp, .lit "in", .sp, .lit "touch", .wb] ]) ]

/-- `topic_keywords` from `ChatbotOrchestrator.__init__`, in dictionary order. -/
def topic_keywords : List (String × List String) :=
  [ ("careers", ["job", "career", "hiring", "apply", "resume", "position", "opening", "work at"]),
    ("demo", ["demo", "demonstration", "poc", "proof of concept", "trial", "sandbox"]),
    ("services", ["service", "offering", "capability", "solution", "provide", "deliver"]),
    ("case_studies", ["case study", "case studies", "past work", "project", "client example"]),
    ("pricing", ["price", "cost", "pricing", "budget", "estimate", "quotation"]),
    ("contact", ["contact", "reach", "phone", "email", "address", "location", "office"]),
    ("technical", ["tool", "technology", "framework", "database", "integration", "api"]),
    ("procurement", ["rfp", "proposal", "tender", "procurement", "bid"]) ]

/-- `_detect_handoff`: does any handoff pattern match the query? -/
def detect_handoff (query : String) : Bool :=
  handoff_patterns.any (fun p => reSearch p query)

/-- `_detect_transactional_intent`: first intent whose pattern set matches. -/
def detect_transactional_intent (query : String) : Option String :=
  (transactional_patterns.find? (fun ip => ip.2.any (fun p => reSearch p query))).map (fun ip => ip.1)

/-- A session's field map (`session['data']`), a string-keyed dictionary. -/
abbrev Fields := List (String × String)

/-- Dictionary lookup `d.get(k)`. -/
def getField : Fields → String → Option String
  | [], _ => none
  | kv :: rest, k => if kv.1 == k then some kv.2 else getField rest k

/-- Dictionary lookup with default, `d.get(k, dflt)`. -/
def pyGet (d : Fields) (k dflt : String) : String :=
  (getField d k).getD dflt

/-- Dictionary single-key assignment `d[k] = v` (replace in place, or append a
new key at the end, matching dict insertion order). -/
def setField (d : Fields) (k v : String) : Fields :=
  match d with
  | [] => [(k, v)]
  | kv :: rest => if kv.1 == k then (k, v) :: rest else kv :: setField rest k v

/-- Dictionary merge `d.update(upd)`. -/
def updateFields (d upd : Fields) : Fields :=
  upd.foldl (fun acc kv => setField acc kv.1 kv.2) d

/-- A session record as stored by `SessionManager`. -/
structure Session where
  state : Option String
  data : Fields
  created_at : String
  last_updated : String
deriving Repr, DecidableEq

/-- The `SessionManager.sessions` dictionary, keyed by session id. -/
abbrev Sessions := List (String × Session)

/-- Read a session by id without creating it. -/
def lookupSession : Sessions → String → Option Session
  | [], _ => none
  | p :: rest, sid => if p.1 == sid then some p.2 else lookupSession rest sid

/-- Replace the stored session for an existing id. -/
def setSession : Sessions → String → Session → Sessions
  | [], _, _ => []
  | p :: rest, sid, s => (if p.1 == sid then (sid, s) else p) :: setSession rest sid s

/-- `SessionManager.get_session`: get or lazily create an idle session, returning
the session together with the (possibly grown) store. -/
def get_session (now sid : String) (sessions : Sessions) : Session × Sessions :=
  match lookupSession sessions sid with
  | some s => (s, sessions)
  | none =>
    let s : Session := { state := none, data := [], created_at := now, last_updated := now }
    (s, sessions ++ [(sid, s)])

/-- `SessionManager.update_session`: overwrite the state tag, merge the data
update into the field map, and refresh `last_updated`. -/
def update_session (now sid state : String) (data : Fields) (sessions : Sessions) : Sessions :=
  let r := get_session now sid sessions
  setSession r.2 sid
    { r.1 with state := some state, data := updateFields r.1.data data, last_updated := now }

/-- `SessionManager.clear_session_state`: reset state and data of an existing
session, keeping the session (and its timestamps) alive. -/
def clear_session_state (sid : String) : Sessions → Sessions
  | [] => []
  | p :: rest =>
    (if p.1 == sid then (p.1, { p.2 with state := none, data := [] }) else p) ::
      clear_session_state sid rest

/-- A persisted lead row, as assembled by the `DatabaseService.format_*` helpers. -/
structure Lead where
  type : String
  name : String
  contact : String
  info : String
  ticket_id : String
  metadata : List (String × Option String)
deriving Repr, DecidableEq

/-- `DatabaseService.format_demo_lead`. -/
def format_demo_lead (demo_data : Fields) (ticket : String) : Lead :=
  { type := "DEMO_REQUEST",
    name := pyGet demo_data "name" "N/A",
    contact := pyGet demo_data "email" "N/A" ++ " | " ++ pyGet demo_data "phone" "N/A",
    info := "Industry: " ++ pyGet demo_data "industry" "N/A" ++ ". Date: " ++
      pyGet demo_data "preferred_date" "N/A" ++ ". Referral: " ++
      pyGet demo_data "referral_source" "N/A",
    ticket_id := ticket,
    metadata := [("industry", getField demo_data "industry"),
                 ("email", getField demo_data "email"),
                 ("phone", getField demo_data "phone"),
                 ("referral_source", getField demo_data "referral_source"),
                 ("preferred_date", getField demo_data "preferred_date")] }

/-- `DatabaseService.format_handoff_lead`. -/
def format_handoff_lead (query ticket : String) : Lead :=
  { type := "HUMAN_HANDOFF",
    name := "Escalated User",
    contact := "Via Chat",
    info := "User request: " ++ query,
    ticket_id := ticket,
    metadata := [("query", some query), ("priority", some "high")] }

/-- The module-level `DATABASE_ENABLED` flag: `database_service` is part of the
repository, so its import succeeds and the flag is `True`. -/
def DATABASE_ENABLED : Bool := true

/-- A UI action button in a rich payload. -/
structure Button where
  label : String
  action : String
  value : Option String := none
  url : Option String := none
deriving Repr, DecidableEq

/-- The `rich_payload` dictionary attached to responses. -/
structure RichPayload where
  buttons : List Button := []
  message : Option String := none
  additional_message : Option String := none
  input_type : Option String := none
  placeholder : Option String := none
deriving Repr, DecidableEq

/-- The `metadata` dictionary attached to responses. -/
structure RespMeta where
  step : Option Nat := none
  total_steps : Option Nat := none
  error : Bool := false
  completed : Bool := false
  escalation_reason : Option String := none
  original_query : Option String := none
  priority : Option String := none
  kb_used : Bool := false
deriving Repr, DecidableEq

/-- A response dictionary returned by the orchestrator: its discriminant
(`type`), the response text, and the optional payload fields the various
handlers attach (`demo_data`/`career_data`/`rfp_data`/`contact_data` are
merged into one `flowData` slot since at most one is ever present). -/
structure Response where
  type : String
  response : String
  flow : Option String := none
  action : Option String := none
  ticket_id : Option String := none
  rich_payload : Option RichPayload := none
  metadata : RespMeta := {}
  flowData : Option Fields := none
  sources : List String := []
deriving Repr, DecidableEq

/-- Outcome of calling a Python handler: a returned dictionary, an implicit
`None` return (control fell off the end of the function), or an uncaught
exception. -/
inductive PyRet where
  | val : Response → PyRet
  | noneRet : PyRet
  | exn : String → PyRet
deriving Repr, DecidableEq

/-- The orchestrator-visible world state: the session store plus the list of
rows the persistence collaborator has been asked to save, in order. -/
structure OrchState where
  sessions : Sessions
  leads : List Lead
deriving Repr, DecidableEq

/-- The world state at process start: empty session store, no saved leads. -/
def initState : OrchState := { sessions := [], leads := [] }

/-- `_escalate_to_human`: generate a ticket, persist a handoff lead, clear any
active flow, and return the fixed escalation response. -/
def escalate_to_human (uuid query sid : String) (st : OrchState) : Response × OrchState :=
  let ticket_id := pySlice8Upper uuid
  let leads' := if DATABASE_ENABLED then st.leads ++ [format_handoff_lead query ticket_id]
                else st.leads
  let sessions' := clear_session_state sid st.sessions
  ({ type := "handoff",
     response := "I understand you\x27d like to speak with a human agent. Let me connect you with our support team right away.",
     action := some "escalate_to_human",
     ticket_id := some ticket_id,
     metadata := { escalation_reason := some "user_request", original_query := some query,
                   priority := some "high" },
     rich_payload := some
       { buttons := [{ label := "📞 Call Us", action := "show_phone", value := some "+1-XXX-XXX-XXXX" },
                     { label := "✉️ Email Us", action := "show_email", value := some "support@instalogic.in" }],
         message := some ("Your escalation ticket ID is **" ++ ticket_id ++
           "**. A team member will contact you shortly.") } },
   { st with sessions := sessions', leads := leads' })

/-- Topics whose keyword sets hit the combined text, in dictionary order
(the loop over `self.topic_keywords.items()` in `enrich_response`). -/
def detectTopics (combined : String) : List String :=
  (topic_keywords.filter (fun tk => tk.2.any (fun kw => containsSub kw combined))).map (fun tk => tk.1)

/-- The careers button pair appended by `enrich_response`. -/
def careersButtons : List Button :=
  [{ label := "📄 Upload Resume", action := "show_resume_form" },
   { label := "💼 View Open Positions", action := "open_link",
     url := some "https://www.instalogic.in/careers/" }]

/-- The per-topic button accumulation of `enrich_response`: each detected topic
appends its fixed button set, in the source's if-chain order. -/
def enrichButtons (topics : List String) : List Button :=
  (if topics.contains "careers" then careersButtons else []) ++
  (if topics.contains "demo" then
    [{ label := "🎯 Request Demo", action := "start_demo_flow" },
     { label := "🔬 Request PoC", action := "start_demo_flow" }] else []) ++
  (if topics.contains "services" then
    [{ label := "📋 View All Services", action := "open_link",
       url := some "https://www.instalogic.in/our-services/" },
     { label := "🎯 Request Demo", action := "start_demo_flow" },
     { label := "📞 Contact Sales", action := "start_contact_flow" }] else []) ++
  (if topics.contains "case_studies" then
    [{ label := "📚 View Case Studies", action := "open_link",
       url := some "https://www.instalogic.in/case-studies/" },
     { label := "🎯 Request Demo", action := "start_demo_flow" }] else []) ++
  (if topics.contains "pricing" then
    [{ label := "💰 Get Quote", action := "start_contact_flow" },
     { label := "📊 Request Estimate", action := "start_demo_flow" }] else []) ++
  (if topics.contains "contact" then
    [{ label := "📞 Schedule Call", action := "start_contact_flow" },
     { label := "✉️ Contact Us", action := "open_link",
       url := some "https://www.instalogic.in/contact-us/" }] else []) ++
  (if topics.contains "procurement" then
    [{ label := "📤 Upload RFP", action := "start_rfp_flow" },
     { label := "📝 Request NDA", action := "start_contact_flow" }] else [])

/-- `enrich_response(kb_response, user_query)`: detect topics in the lower-cased
concatenation, accumulate per-topic buttons, fall back to a default button set
when nothing matched, and cap the list at 4 buttons. -/
def enrich_response (kb_response user_query : String) : RichPayload :=
  let combined := pyLower (user_query ++ " " ++ kb_response)
  let topics := detectTopics combined
  let buttons := enrichButtons topics
  let additional_message :=
    if topics.contains "careers" then
      some "Interested in joining our team? Upload your resume to apply!"
    else none
  let buttons :=
    if buttons.isEmpty then
      [{ label := "📋 View Services", action := "open_link",
         url := some "https://www.instalogic.in/our-services/" },
       { label := "🎯 Request Demo", action := "start_demo_flow" },
       { label := "📞 Contact Sales", action := "start_contact_flow" }]
    else buttons
  { buttons := buttons.take 4, additional_message := additional_message }

/-- `_query_knowledge_base`: the generation collaborator is external, so the
text it returns is the parameter `kbResp`; its source list and context flag are
likewise external and elided. Session state is untouched by this path. -/
def query_knowledge_base (kbResp query : String) : Response :=
  { type := "knowledge",
    response := kbResp,
    sources := [],
    rich_payload := some (enrich_response kbResp query) }

/-- The "Other" test at the demo industry/referral steps:
`'🏢 Other' in x or x.lower() == 'other'`. -/
def otherSelected (s : String) : Bool :=
  containsSub "🏢 Other" s || pyLower s == "other"

/-- `handle_demo_flow`: the seven-step (plus two detour states) demo state
machine, including the email validation re-prompt and the generic fallback for
unrecognized states. -/
def handle_demo_flow (uuid now query sid : String) (st : OrchState) : Response × OrchState :=
  match get_session now sid st.sessions with
  | (session, sessions0) =>
    if session.state = none ∨ session.state = some "demo_start" then
      ({ type := "transaction", flow := some "demo",
         response := "I\x27d be happy to arrange a demo! 🎯\n\nWhich industry is this for?",
         rich_payload := some { buttons :=
           [{ label := "🏛️ Government", action := "select_industry", value := some "Government" },
            { label := "💼 Finance", action := "select_industry", value := some "Finance" },
            { label := "🛒 Retail", action := "select_industry", value := some "Retail" },
            { label := "🏢 Other", action := "select_industry", value := some "Other" }] },
         metadata := { step := some 1, total_steps := some 7 } },
       { st with sessions := update_session now sid "demo_awaiting_industry" [] sessions0 })
    else if session.state = some "demo_awaiting_industry" then
      if otherSelected (pyStrip query) then
        ({ type := "transaction", flow := some "demo",
           response := "Great! 👍\n\nWhich industry would you like the demo for? (Please specify)",
           rich_payload := some { input_type := some "text", placeholder := some "e.g., Healthcare, Manufacturing, etc." },
           metadata := { step := some 2, total_steps := some 7 } },
         { st with sessions := update_session now sid "demo_awaiting_custom_industry" [] sessions0 })
      else
        ({ type := "transaction", flow := some "demo",
           response := "Great! **" ++ pyStrip query ++ "** industry. 👍\n\nWhat\x27s your name?",
           rich_payload := some { input_type := some "text", placeholder := some "Your full name" },
           metadata := { step := some 2, total_steps := some 7 } },
         { st with sessions :=
             update_session now sid "demo_awaiting_name" [("industry", pyStrip query)] sessions0 })
    else if session.state = some "demo_awaiting_custom_industry" then
      ({ type := "transaction", flow := some "demo",
         response := "Perfect! **" ++ pyStrip query ++ "** industry. 👍\n\nWhat\x27s your name?",
         rich_payload := some { input_type := some "text", placeholder := some "Your full name" },
         metadata := { step := some 2, total_steps := some 7 } },
       { st with sessions :=
           update_session now sid "demo_awaiting_name" [("industry", pyStrip query)] sessions0 })
    else if session.state = some "demo_awaiting_name" then
      ({ type := "transaction", flow := some "demo",
         response := "Nice to meet you, **" ++ pyStrip query ++ "**! 👋\n\nWhat\x27s your email?",
         rich_payload := some { input_type := some "email", placeholder := some "your.email@company.com" },
         metadata := { step := some 3, total_steps := some 7 } },
       { st with sessions := update_session now sid "demo_awaiting_email" [("name", pyStrip query)] sessions0 })
    else if session.state = some "demo_awaiting_email" then
      if !(containsSub "@" (pyStrip query)) || !(containsSub "." (pyStrip query)) then
        ({ type := "transaction", flow := some "demo",
           response := "Please provide a valid email:",
           rich_payload := some { input_type := some "email", placeholder := some "your.email@company.com" },
           metadata := { step := some 3, total_steps := some 7, error := true } },
         { st with sessions := sessions0 })
      else
        ({ type := "transaction", flow := some "demo",
           response := "Perfect! 📧\n\nWhat\x27s your phone number?",
           rich_payload := some { input_type := some "tel", placeholder := some "+91 XXXXX XXXXX" },
           metadata := { step := some 4, total_steps := some 7 } },
         { st with sessions :=
             update_session now sid "demo_awaiting_phone" [("email", pyStrip query)] sessions0 })
    else if session.state = some "demo_awaiting_phone" then
      ({ type := "transaction", flow := some "demo",
         response := "Thanks! 📱\n\nHow did you hear about us?",
         rich_payload := some { buttons :=
           [{ label := "🔍 Google Search", action := "select_referral", value := some "Google Search" },
            { label := "🤝 Referral", action := "select_referral", value := some "Referral" },
            { label := "📱 Social Media", action := "select_referral", value := some "Social Media" },
            { label := "📰 Advertisement", action := "select_referral", value := some "Advertisement" },
            { label := "🏢 Other", action := "select_referral", value := some "Other" }] },
         metadata := { step := some 5, total_steps := some 7 } },
       { st with sessions :=
           update_session now sid "demo_awaiting_referral" [("phone", pyStrip query)] sessions0 })
    else if session.state = some "demo_awaiting_referral" then
      if otherSelected (pyStrip query) then
        ({ type := "transaction", flow := some "demo",
           response := "Thanks! 👍\n\nHow did you hear about us? (Please specify)",
           rich_payload := some { input_type := some "text", placeholder := some "e.g., LinkedIn, Blog, Conference, etc." },
           metadata := { step := some 5, total_steps := some 7 } },
         { st with sessions := update_session now sid "demo_awaiting_custom_referral" [] sessions0 })
      else
        ({ type := "transaction", flow := some "demo",
           response := "Great! 👍\n\nWhat\x27s your preferred date and time?",
           rich_payload := some { input_type := some "datetime", placeholder := some "e.g., 12-11-25, 4:00 PM" },
           metadata := { step := some 6, total_steps := some 7 } },
         { st with sessions :=
             update_session now sid "demo_awaiting_date" [("referral_source", pyStrip query)] sessions0 })
    else if session.state = some "demo_awaiting_custom_referral" then
      ({ type := "transaction", flow := some "demo",
         response := "Perfect! 👍\n\nWhat\x27s your preferred date and time?",
         rich_payload := some { input_type := some "datetime", placeholder := some "e.g., 12-11-25, 4:00 PM" },
         metadata := { step := some 6, total_steps := some 7 } },
       { st with sessions :=
           update_session now sid "demo_awaiting_date" [("referral_source", pyStrip query)] sessions0 })
    else if session.state = some "demo_awaiting_date" then
      ({ type := "transaction", flow := some "demo",
         response := "✅ **Demo Confirmed!**\n\n**Your Details:**\n- Industry: " ++
           pyGet (setField session.data "preferred_date" (pyStrip query)) "industry" "N/A" ++
           "\n- Name: " ++ pyGet (setField session.data "preferred_date" (pyStrip query)) "name" "N/A" ++
           "\n- Email: " ++ pyGet (setField session.data "preferred_date" (pyStrip query)) "email" "N/A" ++
           "\n- Phone: " ++ pyGet (setField session.data "preferred_date" (pyStrip query)) "phone" "N/A" ++
           "\n- Referral: " ++
           pyGet (setField session.data "preferred_date" (pyStrip query)) "referral_source" "N/A" ++
           "\n- Date: " ++ pyStrip query ++ "\n- Ticket ID: **" ++ pySlice8Upper uuid ++
           "**\n\nOur team will contact you shortly! 🚀",
         action := some "demo_confirmed",
         ticket_id := some (pySlice8Upper uuid),
         flowData := some (setField session.data "preferred_date" (pyStrip query)),
         rich_payload := some { buttons :=
           [{ label := "📋 View Services", action := "open_link",
              url := some "https://www.instalogic.in/our-services/" },
            { label := "📚 Case Studies", action := "open_link",
              url := some "https://www.instalogic.in/case-studies/" }] },
         metadata := { step := some 7, total_steps := some 7, completed := true } },
       { st with
           sessions := clear_session_state sid (setSession sessions0 sid
             { session with data := setField session.data "preferred_date" (pyStrip query) }),
           leads := if DATABASE_ENABLED then
               st.leads ++ [format_demo_lead
                 (setField session.data "preferred_date" (pyStrip query)) (pySlice8Upper uuid)]
             else st.leads })
    else
      ({ type := "error",
         response := "I\x27m sorry, something went wrong with the demo request. Let\x27s start over. Would you like to request a demo?",
         rich_payload := some { buttons :=
           [{ label := "🎯 Start Demo Request", action := "start_demo_flow" },
            { label := "❌ Cancel", action := "cancel_flow" }] } },
       { st with sessions := sessions0 })

/-- `handle_career_flow`: the four-step career state machine. Its completion
branch calls `database_service.format_career_lead`, a method `DatabaseService`
does not define, so with the database enabled it raises `AttributeError` after
having stored the position into the session data; a state tag it does not
recognize falls off the end of the function, returning `None`. -/
def handle_career_flow (uuid now query sid : String) (st : OrchState) : PyRet × OrchState :=
  match get_session now sid st.sessions with
  | (session, sessions0) =>
    if session.state = none then
      (.val
       { type := "transaction", flow := some "career",
         response := "Excited to hear you\x27re interested in joining InstaLogic! 💼\n\nLet me collect some information. What\x27s your full name?",
         rich_payload := some { input_type := some "text" },
         metadata := { step := some 1, total_steps := some 4 } },
       { st with sessions := update_session now sid "career_awaiting_name" [] sessions0 })
    else if session.state = some "career_awaiting_name" then
      (.val
       { type := "transaction", flow := some "career",
         response := "Great, **" ++ pyStrip query ++ "**! What\x27s your email address?",
         rich_payload := some { input_type := some "email" },
         metadata := { step := some 2, total_steps := some 4 } },
       { st with sessions := update_session now sid "career_awaiting_email" [("name", pyStrip query)] sessions0 })
    else if session.state = some "career_awaiting_email" then
      (.val
       { type := "transaction", flow := some "career",
         response := "Which position are you interested in?",
         rich_payload := some { buttons :=
           [{ label := "Data Analyst", action := "select_position", value := some "Data Analyst" },
            { label := "Software Engineer", action := "select_position", value := some "Software Engineer" },
            { label := "BI Consultant", action := "select_position", value := some "BI Consultant" },
            { label := "Other", action := "select_position", value := some "Other" }] },
         metadata := { step := some 3, total_steps := some 4 } },
       { st with sessions := update_session now sid "career_awaiting_position" [("email", pyStrip query)] sessions0 })
    else if session.state = some "career_awaiting_position" then
      if DATABASE_ENABLED then
        (.exn "AttributeError: \x27DatabaseService\x27 object has no attribute \x27format_career_lead\x27",
         { st with sessions := setSession sessions0 sid { session with data := setField session.data "position" (pyStrip query) } })
      else
        (.val
         { type := "transaction", flow := some "career",
           response := "✅ **Application Received!**\n\nThank you for your interest in the **" ++
             pyStrip query ++ "** position. Your application ID is **" ++ pySlice8Upper uuid ++
             "**.\n\nPlease email your resume to careers@instalogic.in with this ID in the subject line.",
           action := some "career_submitted",
           ticket_id := some (pySlice8Upper uuid),
           flowData := some (setField session.data "position" (pyStrip query)),
           rich_payload := some { buttons :=
             [{ label := "📄 Upload Resume", action := "show_resume_form" },
              { label := "💼 View Careers Page", action := "open_link",
                url := some "https://www.instalogic.in/careers/" }] },
           metadata := { step := some 4, total_steps := some 4, completed := true } },
         { st with sessions := clear_session_state sid (setSession sessions0 sid
             { session with data := setField session.data "position" (pyStrip query) }) })
    else
      (.noneRet, { st with sessions := sessions0 })

/-- `handle_rfp_flow`: the four-step RFP state machine. Its completion branch
calls the missing `database_service.format_rfp_lead`, raising `AttributeError`
with the database enabled; unrecognized state tags fall off the end (`None`). -/
def handle_rfp_flow (uuid now query sid : String) (st : OrchState) : PyRet × OrchState :=
  match get_session now sid st.sessions with
  | (session, sessions0) =>
    if session.state = none then
      (.val
       { type := "transaction", flow := some "rfp",
         response := "Thank you for considering InstaLogic for your project! 📤\n\nWhat\x27s your company name?",
         rich_payload := some { input_type := some "text" },
         metadata := { step := some 1, total_steps := some 4 } },
       { st with sessions := update_session now sid "rfp_awaiting_company" [] sessions0 })
    else if session.state = some "rfp_awaiting_company" then
      (.val
       { type := "transaction", flow := some "rfp",
         response := "What\x27s the best email to reach you at?",
         rich_payload := some { input_type := some "email" },
         metadata := { step := some 2, total_steps := some 4 } },
       { st with sessions := update_session now sid "rfp_awaiting_contact" [("company", pyStrip query)] sessions0 })
    else if session.state = some "rfp_awaiting_contact" then
      (.val
       { type := "transaction", flow := some "rfp",
         response := "Please provide a brief description of your project:",
         rich_payload := some { input_type := some "textarea", placeholder := some "Project requirements, timeline, budget range..." },
         metadata := { step := some 3, total_steps := some 4 } },
       { st with sessions := update_session now sid "rfp_awaiting_brief" [("email", pyStrip query)] sessions0 })
    else if session.state = some "rfp_awaiting_brief" then
      if DATABASE_ENABLED then
        (.exn "AttributeError: \x27DatabaseService\x27 object has no attribute \x27format_rfp_lead\x27",
         { st with sessions := setSession sessions0 sid { session with data := setField session.data "brief" (pyStrip query) } })
      else
        (.val
         { type := "transaction", flow := some "rfp",
           response := "✅ **RFP Received!**\n\nYour RFP has been submitted successfully. Reference ID: **" ++
             pySlice8Upper uuid ++ "**\n\nOur proposals team will review it and respond within 24-48 hours. You can also email your detailed RFP document to proposals@instalogic.in",
           action := some "rfp_submitted",
           ticket_id := some (pySlice8Upper uuid),
           flowData := some (setField session.data "brief" (pyStrip query)),
           rich_payload := some { buttons :=
             [{ label := "📧 Email RFP Document", action := "open_email", value := some "proposals@instalogic.in" },
              { label := "📞 Schedule Call", action := "start_contact_flow" }] },
           metadata := { step := some 4, total_steps := some 4, completed := true } },
         { st with sessions := clear_session_state sid (setSession sessions0 sid
             { session with data := setField session.data "brief" (pyStrip query) }) })
    else
      (.noneRet, { st with sessions := sessions0 })

/-- The contact-method dictionary lookup with `email` default:
`{'email': ..., 'phone': ..., 'both': ...}.get(method, '📧 info@instalogic.in')`. -/
def contactInfoFor (method : String) : String :=
  if method = "email" then "📧 info@instalogic.in"
  else if method = "phone" then "📞 +91-XXX-XXX-XXXX"
  else if method = "both" then "📧 info@instalogic.in\n📞 +91-XXX-XXX-XXXX"
  else "📧 info@instalogic.in"

/-- `handle_contact_flow`: the three-step contact state machine. Its completion
branch generates a ticket and clears the session but never hands a lead to the
persistence collaborator; unrecognized state tags fall off the end (`None`). -/
def handle_contact_flow (uuid now query sid : String) (st : OrchState) : PyRet × OrchState :=
  match get_session now sid st.sessions with
  | (session, sessions0) =>
    if session.state = none then
      (.val
       { type := "transaction", flow := some "contact",
         response := "I\x27ll help you get in touch with our team! 📞\n\nWhat\x27s your name?",
         rich_payload := some { input_type := some "text" },
         metadata := { step := some 1, total_steps := some 3 } },
       { st with sessions := update_session now sid "contact_awaiting_name" [] sessions0 })
    else if session.state = some "contact_awaiting_name" then
      (.val
       { type := "transaction", flow := some "contact",
         response := "Thanks, **" ++ pyStrip query ++ "**! How would you prefer to be contacted?",
         rich_payload := some { buttons :=
           [{ label := "📧 Email", action := "select_contact_method", value := some "email" },
            { label := "📞 Phone", action := "select_contact_method", value := some "phone" },
            { label := "💬 Both", action := "select_contact_method", value := some "both" }] },
         metadata := { step := some 2, total_steps := some 3 } },
       { st with sessions := update_session now sid "contact_awaiting_method" [("name", pyStrip query)] sessions0 })
    else if session.state = some "contact_awaiting_method" then
      (.val
       { type := "transaction", flow := some "contact",
         response := "✅ **Contact Request Received!**\n\nReference ID: **" ++ pySlice8Upper uuid ++
           "**\n\nYou can also reach us directly at:\n" ++ contactInfoFor (pyLower (pyStrip query)),
         action := some "contact_submitted",
         ticket_id := some (pySlice8Upper uuid),
         flowData := some session.data,
         rich_payload := some { buttons :=
           [{ label := "🌐 Visit Website", action := "open_link",
              url := some "https://www.instalogic.in/contact-us/" },
            { label := "📋 View Services", action := "open_link",
              url := some "https://www.instalogic.in/our-services/" }] },
         metadata := { step := some 3, total_steps := some 3, completed := true } },
       { st with sessions := clear_session_state sid sessions0 })
    else
      (.noneRet, { st with sessions := sessions0 })


/-- Priorities 3 and 4 of `handle_user_query`: transactional-intent dispatch,
falling back to the knowledge-base query. -/
def dispatch_intent (uuid now kbResp query query_lower sid : String) (st : OrchState) :
    PyRet × OrchState :=
  match detect_transactional_intent query_lower with
  | some "request_demo" =>
    let r := handle_demo_flow uuid now query sid st
    (.val r.1, r.2)
  | some "request_career" => handle_career_flow uuid now query sid st
  | some "upload_rfp" => handle_rfp_flow uuid now query sid st
  | some "request_contact" => handle_contact_flow uuid now query sid st
  | _ => (.val (query_knowledge_base kbResp query), st)

/-- `handle_user_query`, the top-level router: handoff first, then active-flow
continuation by state-tag prefix, then transactional-intent detection, then the
knowledge-base fallback. A non-idle state tag matching no prefix falls through
to intent detection, exactly as the source's if-chain does. -/
def handle_user_query (uuid now kbResp query sid : String) (st : OrchState) : PyRet × OrchState :=
  let query_lower := pyStrip (pyLower query)
  if detect_handoff query_lower then
    let r := escalate_to_human uuid query sid st
    (.val r.1, r.2)
  else
    let gs := get_session now sid st.sessions
    let st1 : OrchState := { st with sessions := gs.2 }
    match gs.1.state with
    | some s =>
      if pyStartsWith s "demo_" then
        let r := handle_demo_flow uuid now query sid st1
        (.val r.1, r.2)
      else if pyStartsWith s "career_" then handle_career_flow uuid now query sid st1
      else if pyStartsWith s "rfp_" then handle_rfp_flow uuid now query sid st1
      else if pyStartsWith s "contact_" then handle_contact_flow uuid now query sid st1
      else dispatch_intent uuid now kbResp query query_lower sid st1
    | none => dispatch_intent uuid now kbResp query query_lower sid st1

/-- One inbound message for the router, with its per-turn environment inputs
(the generated uuid, the clock reading, and the external collaborator's text). -/
structure QueryCall where
  uuid : String
  now : String
  kbResp : String
  query : String
  sid : String

/-- Run a sequence of inbound messages through the router. -/
def runQueries (calls : List QueryCall) (st : OrchState) : OrchState :=
  calls.foldl (fun s c => (handle_user_query c.uuid c.now c.kbResp c.query c.sid s).2) st

/-- Drive the demo flow handler directly with a sequence of user inputs,
collecting each turn's response. -/
def runDemoFlow (uuid now sid : String) (queries : List String) (st : OrchState) :
    List Response × OrchState :=
  match queries with
  | [] => ([], st)
  | q :: rest =>
    let r := handle_demo_flow uuid now q sid st
    let rs := runDemoFlow uuid now sid rest r.2
    (r.1 :: rs.1, rs.2)

/-! ## Basic store lemmas -/

theorem lookup_clear_self {sessions : Sessions} {sid : String} {s : Session}
    (h : lookupSession sessions sid = some s) :
    lookupSession (clear_session_state sid sessions) sid = some { s with state := none, data := [] } := by
  induction sessions with
  | nil => simp [lookupSession] at h
  | cons p rest ih =>
    by_cases hp : (p.1 == sid) = true
    · rw [lookupSession, if_pos hp] at h
      cases h
      rw [clear_session_state, if_pos hp, lookupSession]
      simp [hp]
    · rw [lookupSession, if_neg hp] at h
      rw [clear_session_state, if_neg hp, lookupSession, if_neg hp]
      exact ih h

theorem lookup_clear_ne {sessions : Sessions} {sid sid2 : String} (h : sid2 ≠ sid) :
    lookupSession (clear_session_state sid sessions) sid2 = lookupSession sessions sid2 := by
  induction sessions with
  | nil => rfl
  | cons p rest ih =>
    by_cases hp : (p.1 == sid) = true
    · have hp2 : (p.1 == sid2) = false := by
        rw [beq_iff_eq] at hp
        rw [beq_eq_false_iff_ne, hp]
        exact fun hh => h hh.symm
      rw [clear_session_state, if_pos hp, lookupSession, hp2, lookupSession, hp2, ih]
      rfl
    · rw [clear_session_state, if_neg hp, lookupSession, lookupSession]
      by_cases hp2 : (p.1 == sid2) = true
      · rw [if_pos hp2, if_pos hp2]
      · rw [if_neg hp2, if_neg hp2, ih]

theorem get_session_of_lookup {sessions : Sessions} {now sid : String} {s : Session}
    (h : lookupSession sessions sid = some s) :
    get_session now sid sessions = (s, sessions) := by
  simp [get_session, h]

theorem mem_pyStrip {c : Char} {s : String} (h : c ∈ (pyStrip s).data) : c ∈ s.data := by
  have h0 : c ∈ (s.data.dropWhile isPySpace).reverse.dropWhile isPySpace :=
    List.mem_reverse.1 h
  have h1 : c ∈ (s.data.dropWhile isPySpace).reverse :=
    (List.dropWhile_sublist isPySpace).subset h0
  have h2 : c ∈ s.data.dropWhile isPySpace := List.mem_reverse.1 h1
  exact (List.dropWhile_sublist isPySpace).subset h2

/-- Claim C9: for an existing session, `clear_session_state` resets its state
to idle and its fields to empty while keeping the entry alive with its
`created_at` and `last_updated` timestamps untouched, and leaves every other
session's entry unchanged. -/
theorem clear_session_frame (sid : String) (sessions : Sessions) (s : Session)
    (h : lookupSession sessions sid = some s) :
    (∃ s', lookupSession (clear_session_state sid sessions) sid = some s' ∧
      s'.state = none ∧ s'.data = [] ∧
      s'.created_at = s.created_at ∧ s'.last_updated = s.last_updated) ∧
    ∀ sid2, sid2 ≠ sid →
      lookupSession (clear_session_state sid sessions) sid2 = lookupSession sessions sid2 := by
  refine ⟨⟨{ s with state := none, data := [] }, lookup_clear_self h, rfl, rfl, rfl, rfl⟩, ?_⟩
  intro sid2 h2
  exact lookup_clear_ne h2

/-- Witness for C9 at a concrete store: a mid-flow session is reset in place. -/
theorem clear_session_frame_witness :
    (∃ s', lookupSession (clear_session_state "s"
        [("s", ⟨some "demo_awaiting_email", [("name", "J")], "c0", "t3"⟩), ("u", ⟨none, [], "c1", "c1"⟩)]) "s" = some s' ∧
      s'.state = none ∧ s'.data = [] ∧ s'.created_at = "c0" ∧ s'.last_updated = "t3") ∧
    ∀ sid2, sid2 ≠ "s" →
      lookupSession (clear_session_state "s"
        [("s", ⟨some "demo_awaiting_email", [("name", "J")], "c0", "t3"⟩), ("u", ⟨none, [], "c1", "c1"⟩)]) sid2 =
      lookupSession [("s", ⟨some "demo_awaiting_email", [("name", "J")], "c0", "t3"⟩), ("u", ⟨none, [], "c1", "c1"⟩)] sid2 :=
  clear_session_frame "s" _ ⟨some "demo_awaiting_email", [("name", "J")], "c0", "t3"⟩ (by rfl)

theorem subElem_single {c : Char} {l : List Char} : subElem [c] l = true ↔ c ∈ l := by
  induction l with
  | nil => simp [subElem]
  | cons a as ih =>
    rw [subElem]
    simp only [List.isPrefixOf, Bool.and_true, Bool.or_eq_true, beq_iff_eq, ih, List.mem_cons]

theorem containsSub_single_iff {c : Char} {s : String} :
    containsSub (String.mk [c]) s = true ↔ c ∈ s.data :=
  subElem_single

/-- Claim C5: at the demo email step, any input lacking an `@` or a `.` gets an
error-flagged transactional re-prompt, and the whole orchestrator state — the
session's state tag, its fields, and the saved leads — is left untouched. -/
theorem demo_email_validation (uuid now sid input : String) (st : OrchState) (s : Session)
    (hs : lookupSession st.sessions sid = some s)
    (hstate : s.state = some "demo_awaiting_email")
    (hbad : ¬ ('@' ∈ input.data ∧ '.' ∈ input.data)) :
    (handle_demo_flow uuid now input sid st).1.type = "transaction" ∧
    (handle_demo_flow uuid now input sid st).1.metadata.error = true ∧
    (handle_demo_flow uuid now input sid st).2 = st := by
  have hget : get_session now sid st.sessions = (s, st.sessions) := get_session_of_lookup hs
  have hat : ∀ t : String, containsSub "@" t = true ↔ '@' ∈ t.data := fun _ =>
    containsSub_single_iff
  have hdot : ∀ t : String, containsSub "." t = true ↔ '.' ∈ t.data := fun _ =>
    containsSub_single_iff
  have hcond : (!(containsSub "@" (pyStrip input)) || !(containsSub "." (pyStrip input))) = true := by
    by_cases hA : containsSub "@" (pyStrip input) = true
    · have hAin : '@' ∈ input.data := mem_pyStrip ((hat _).1 hA)
      have hDs : containsSub "." (pyStrip input) = false := by
        rcases Bool.eq_false_or_eq_true (containsSub "." (pyStrip input)) with h | h
        · exact absurd ⟨hAin, mem_pyStrip ((hdot _).1 h)⟩ hbad
        · exact h
      simp [hDs]
    · simp [Bool.not_eq_true] at hA
      simp [hA]
  simp only [handle_demo_flow, hget, hstate]
  rw [if_pos trivial, if_pos hcond]
  exact ⟨rfl, rfl, rfl⟩

/-- Witness for C5: the spec's own example input `not-an-email` at the email
step is rejected without a state change. -/
theorem demo_email_validation_witness :
    (handle_demo_flow "u" "t1" "not-an-email" "s"
        ⟨[("s", ⟨some "demo_awaiting_email", [("name", "J")], "c0", "t0"⟩)], []⟩).1.type = "transaction" ∧
    (handle_demo_flow "u" "t1" "not-an-email" "s"
        ⟨[("s", ⟨some "demo_awaiting_email", [("name", "J")], "c0", "t0"⟩)], []⟩).1.metadata.error = true ∧
    (handle_demo_flow "u" "t1" "not-an-email" "s"
        ⟨[("s", ⟨some "demo_awaiting_email", [("name", "J")], "c0", "t0"⟩)], []⟩).2 =
      ⟨[("s", ⟨some "demo_awaiting_email", [("name", "J")], "c0", "t0"⟩)], []⟩ :=
  demo_email_validation "u" "t1" "s" "not-an-email" _
    ⟨some "demo_awaiting_email", [("name", "J")], "c0", "t0"⟩ (by rfl) (by rfl) (by decide)

/-- The spec's demo-drive input sequence, preceded by the message that opens
the flow from an idle session (its text is irrelevant: step 1 ignores it). -/
def demoInputs : List String :=
  ["book a demo", "Finance", "Jane Doe", "jane@co.com", "+1234567890", "Referral",
   "2025-12-01 3pm"]

/-- Orchestrator state after demo step 1 (industry prompt issued). -/
def demoSt1 (now : String) : OrchState :=
  ⟨[("s1", ⟨some "demo_awaiting_industry", [], now, now⟩)], []⟩

/-- State after "Finance" was stored. -/
def demoSt2 (now : String) : OrchState :=
  ⟨[("s1", ⟨some "demo_awaiting_name", [("industry", "Finance")], now, now⟩)], []⟩

/-- State after the name was stored. -/
def demoSt3 (now : String) : OrchState :=
  ⟨[("s1", ⟨some "demo_awaiting_email", [("industry", "Finance"), ("name", "Jane Doe")], now, now⟩)], []⟩

/-- State after the email was stored. -/
def demoSt4 (now : String) : OrchState :=
  ⟨[("s1", ⟨some "demo_awaiting_phone",
      [("industry", "Finance"), ("name", "Jane Doe"), ("email", "jane@co.com")], now, now⟩)], []⟩

/-- State after the phone number was stored. -/
def demoSt5 (now : String) : OrchState :=
  ⟨[("s1", ⟨some "demo_awaiting_referral",
      [("industry", "Finance"), ("name", "Jane Doe"), ("email", "jane@co.com"),
       ("phone", "+1234567890")], now, now⟩)], []⟩

/-- State after the referral source was stored. -/
def demoSt6 (now : String) : OrchState :=
  ⟨[("s1", ⟨some "demo_awaiting_date",
      [("industry", "Finance"), ("name", "Jane Doe"), ("email", "jane@co.com"),
       ("phone", "+1234567890"), ("referral_source", "Referral")], now, now⟩)], []⟩

/-- The collected demo fields of the spec's drive. -/
def demoFields : Fields :=
  [("industry", "Finance"), ("name", "Jane Doe"), ("email", "jane@co.com"),
   ("phone", "+1234567890"), ("referral_source", "Referral"),
   ("preferred_date", "2025-12-01 3pm")]

/-- Final state of the drive: session cleared, exactly one demo lead saved. -/
def demoFinal (uuid now : String) : OrchState :=
  ⟨[("s1", ⟨none, [], now, now⟩)], [format_demo_lead demoFields (pySlice8Upper uuid)]⟩

/-- The seven per-turn outputs of the drive, each as one handler application. -/
def demoOut1 (uuid now : String) : Response × OrchState :=
  handle_demo_flow uuid now "book a demo" "s1" initState

def demoOut2 (uuid now : String) : Response × OrchState :=
  handle_demo_flow uuid now "Finance" "s1" (demoSt1 now)

def demoOut3 (uuid now : String) : Response × OrchState :=
  handle_demo_flow uuid now "Jane Doe" "s1" (demoSt2 now)

def demoOut4 (uuid now : String) : Response × OrchState :=
  handle_demo_flow uuid now "jane@co.com" "s1" (demoSt3 now)

def demoOut5 (uuid now : String) : Response × OrchState :=
  handle_demo_flow uuid now "+1234567890" "s1" (demoSt4 now)

def demoOut6 (uuid now : String) : Response × OrchState :=
  handle_demo_flow uuid now "Referral" "s1" (demoSt5 now)

def demoOut7 (uuid now : String) : Response × OrchState :=
  handle_demo_flow uuid now "2025-12-01 3pm" "s1" (demoSt6 now)

theorem demoOut1_eq (uuid now : String) :
    handle_demo_flow uuid now "book a demo" "s1" initState = ((demoOut1 uuid now).1, demoSt1 now) :=
  Prod.ext rfl rfl

theorem demoOut2_eq (uuid now : String) :
    handle_demo_flow uuid now "Finance" "s1" (demoSt1 now) = ((demoOut2 uuid now).1, demoSt2 now) :=
  Prod.ext rfl rfl

theorem demoOut3_eq (uuid now : String) :
    handle_demo_flow uuid now "Jane Doe" "s1" (demoSt2 now) = ((demoOut3 uuid now).1, demoSt3 now) :=
  Prod.ext rfl rfl

theorem demoOut4_eq (uuid now : String) :
    handle_demo_flow uuid now "jane@co.com" "s1" (demoSt3 now) = ((demoOut4 uuid now).1, demoSt4 now) :=
  Prod.ext rfl rfl

theorem demoOut5_eq (uuid now : String) :
    handle_demo_flow uuid now "+1234567890" "s1" (demoSt4 now) = ((demoOut5 uuid now).1, demoSt5 now) :=
  Prod.ext rfl rfl

theorem demoOut6_eq (uuid now : String) :
    handle_demo_flow uuid now "Referral" "s1" (demoSt5 now) = ((demoOut6 uuid now).1, demoSt6 now) :=
  Prod.ext rfl rfl

theorem demoOut7_eq (uuid now : String) :
    handle_demo_flow uuid now "2025-12-01 3pm" "s1" (demoSt6 now) =
      ((demoOut7 uuid now).1, demoFinal uuid now) :=
  Prod.ext rfl rfl

/-- The drive, fully unfolded: one response per turn, ending in the cleared
state with exactly one saved demo lead. -/
theorem runDemo_eq (uuid now : String) :
    runDemoFlow uuid now "s1" demoInputs initState =
      ([(demoOut1 uuid now).1, (demoOut2 uuid now).1, (demoOut3 uuid now).1,
        (demoOut4 uuid now).1, (demoOut5 uuid now).1, (demoOut6 uuid now).1,
        (demoOut7 uuid now).1], demoFinal uuid now) := by
  simp only [demoInputs, runDemoFlow, demoOut1_eq, demoOut2_eq, demoOut3_eq, demoOut4_eq,
    demoOut5_eq, demoOut6_eq, demoOut7_eq]

/-- Claim C4: driving the demo flow from an idle session with the six spec
inputs yields exactly 7 responses; the last is marked complete, carries the
non-empty 8-character ticket id sliced from the uuid, and its collected fields
are exactly the six expected key/value pairs. -/
theorem demo_drive_shape (uuid now : String) (h : uuid.data.length = 36) :
    (runDemoFlow uuid now "s1" demoInputs initState).1.length = 7 ∧
    ((runDemoFlow uuid now "s1" demoInputs initState).1.getLast?).map
      (fun r => r.metadata.completed) = some true ∧
    ((runDemoFlow uuid now "s1" demoInputs initState).1.getLast?).map
      (fun r => r.ticket_id) = some (some (pySlice8Upper uuid)) ∧
    pySlice8Upper uuid ≠ "" ∧
    ((runDemoFlow uuid now "s1" demoInputs initState).1.getLast?).map (fun r => r.flowData) =
      some (some demoFields) := by
  rw [runDemo_eq]
  refine ⟨rfl, rfl, rfl, ?_, rfl⟩
  have hlen : ((uuid.data.take 8).map Char.toUpper).length = 8 := by
    simp [List.length_take, h]
  intro heq
  have hdat : ((uuid.data.take 8).map Char.toUpper) = ([] : List Char) :=
    congrArg String.data heq
  rw [hdat] at hlen
  simp at hlen

/-- Witness for C4 at a concrete 36-character uuid. -/
theorem demo_drive_shape_witness :
    (runDemoFlow "abcdef12-3456-7890-abcd-ef1234567890" "t0" "s1" demoInputs initState).1.length = 7 ∧
    ((runDemoFlow "abcdef12-3456-7890-abcd-ef1234567890" "t0" "s1" demoInputs initState).1.getLast?).map
      (fun r => r.metadata.completed) = some true ∧
    ((runDemoFlow "abcdef12-3456-7890-abcd-ef1234567890" "t0" "s1" demoInputs initState).1.getLast?).map
      (fun r => r.ticket_id) = some (some (pySlice8Upper "abcdef12-3456-7890-abcd-ef1234567890")) ∧
    pySlice8Upper "abcdef12-3456-7890-abcd-ef1234567890" ≠ "" ∧
    ((runDemoFlow "abcdef12-3456-7890-abcd-ef1234567890" "t0" "s1" demoInputs initState).1.getLast?).map
      (fun r => r.flowData) = some (some demoFields) :=
  demo_drive_shape "abcdef12-3456-7890-abcd-ef1234567890" "t0" (by decide)

/-! ## Field/session update lemmas -/

theorem getField_setField_self (d : Fields) (k v : String) :
    getField (setField d k v) k = some v := by
  induction d with
  | nil => simp [setField, getField]
  | cons kv rest ih =>
    by_cases h : (kv.1 == k) = true
    · simp [setField, h, getField]
    · simp [setField, h, getField, ih]

theorem lookup_setSession_self {l : Sessions} {sid : String} {s0 : Session}
    (h : lookupSession l sid = some s0) (s : Session) :
    lookupSession (setSession l sid s) sid = some s := by
  induction l with
  | nil => simp [lookupSession] at h
  | cons p rest ih =>
    by_cases hp : (p.1 == sid) = true
    · rw [setSession, if_pos hp, lookupSession]
      simp
    · rw [lookupSession, if_neg hp] at h
      rw [setSession, if_neg hp, lookupSession, if_neg hp]
      exact ih h

theorem lookup_update_self {l : Sessions} {sid : String} {sess : Session}
    (h : lookupSession l sid = some sess) (now tag : String) (d : Fields) :
    lookupSession (update_session now sid tag d l) sid =
      some { sess with state := some tag, data := updateFields sess.data d,
                       last_updated := now } := by
  unfold update_session
  rw [get_session_of_lookup h]
  exact lookup_setSession_self h _

/-- The concrete industry-step session used to refute C6 as stated. -/
def industryStepState : OrchState :=
  ⟨[("s", ⟨some "demo_awaiting_industry", [], "c0", "t0"⟩)], []⟩

/-- Counterexample to C6 as stated: entering the industry string `Other`
directly does not store `fields.industry = "Other"` — it stores nothing and
detours to the custom-industry state instead. -/
theorem industry_other_counterexample :
    ((lookupSession (handle_demo_flow "u" "t1" "Other" "s" industryStepState).2.sessions "s").map
      (fun q => getField q.data "industry")) = some none ∧
    ¬ ((lookupSession (handle_demo_flow "u" "t1" "Other" "s" industryStepState).2.sessions "s").map
      (fun q => getField q.data "industry")) = some (some "Other") ∧
    ((lookupSession (handle_demo_flow "u" "t1" "Other" "s" industryStepState).2.sessions "s").map
      (fun q => q.state)) = some (some "demo_awaiting_custom_industry") := by
  refine ⟨rfl, by decide, rfl⟩

/-- Claim C6 (amended): for any industry string `s` that is strip-stable and
does not itself select the "Other" branch, entering `s` directly and entering
"Other" followed by `s` both leave `fields.industry = s`; and selecting
"Other" transitions the session to the custom-industry state. -/
theorem industry_roundtrip_amended (uuid now sid s : String) (st : OrchState) (sess : Session)
    (hs : lookupSession st.sessions sid = some sess)
    (hstate : sess.state = some "demo_awaiting_industry")
    (hstrip : pyStrip s = s)
    (hother : otherSelected s = false) :
    ((lookupSession (handle_demo_flow uuid now s sid st).2.sessions sid).map
      (fun q => getField q.data "industry")) = some (some s) ∧
    ((lookupSession (handle_demo_flow uuid now "Other" sid st).2.sessions sid).map
      (fun q => q.state)) = some (some "demo_awaiting_custom_industry") ∧
    ((lookupSession
        (handle_demo_flow uuid now s sid (handle_demo_flow uuid now "Other" sid st).2).2.sessions sid).map
      (fun q => getField q.data "industry")) = some (some s) := by
  have hget : get_session now sid st.sessions = (sess, st.sessions) := get_session_of_lookup hs
  have hdirect : ((lookupSession (handle_demo_flow uuid now s sid st).2.sessions sid).map
      (fun q => getField q.data "industry")) = some (some s) := by
    simp only [handle_demo_flow, hget, hstate, hstrip, hother, Bool.false_eq_true,
      Option.some.injEq, reduceCtorEq, String.reduceEq, false_or, or_false, or_true, true_or,
      or_self, if_true, if_false]
    rw [lookup_update_self hs]
    exact congrArg some (getField_setField_self sess.data "industry" s)
  have hOo : otherSelected (pyStrip "Other") = true := rfl
  have hst2 : (handle_demo_flow uuid now "Other" sid st).2 =
      { st with sessions := update_session now sid "demo_awaiting_custom_industry" [] st.sessions } := by
    simp only [handle_demo_flow, hget, hstate, hOo,
      Option.some.injEq, reduceCtorEq, String.reduceEq, false_or, or_false, or_true, true_or,
      or_self, if_true, if_false]
  have hs2 := lookup_update_self hs now "demo_awaiting_custom_industry" ([] : Fields)
  refine ⟨hdirect, ?_, ?_⟩
  · rw [hst2]
    show ((lookupSession (update_session now sid "demo_awaiting_custom_industry" [] st.sessions) sid).map
      (fun q => q.state)) = some (some "demo_awaiting_custom_industry")
    rw [hs2]
    rfl
  · rw [hst2]
    have hget2 : get_session now sid
        (update_session now sid "demo_awaiting_custom_industry" [] st.sessions) =
        ({ sess with state := some "demo_awaiting_custom_industry", data := updateFields sess.data [], last_updated := now },
         update_session now sid "demo_awaiting_custom_industry" [] st.sessions) :=
      get_session_of_lookup hs2
    simp only [handle_demo_flow, hget2, hstrip,
      Option.some.injEq, reduceCtorEq, String.reduceEq, false_or, or_false, or_true, true_or,
      or_self, if_true, if_false]
    rw [lookup_update_self hs2]
    exact congrArg some (getField_setField_self (updateFields sess.data []) "industry" s)

/-- Witness for the amended C6 at `s = "Healthcare"` from a concrete
industry-step session. -/
theorem industry_roundtrip_witness :
    ((lookupSession (handle_demo_flow "u" "t1" "Healthcare" "s" industryStepState).2.sessions "s").map
      (fun q => getField q.data "industry")) = some (some "Healthcare") ∧
    ((lookupSession (handle_demo_flow "u" "t1" "Other" "s" industryStepState).2.sessions "s").map
      (fun q => q.state)) = some (some "demo_awaiting_custom_industry") ∧
    ((lookupSession
        (handle_demo_flow "u" "t1" "Healthcare" "s"
          (handle_demo_flow "u" "t1" "Other" "s" industryStepState).2).2.sessions "s").map
      (fun q => getField q.data "industry")) = some (some "Healthcare") :=
  industry_roundtrip_amended "u" "t1" "s" "Healthcare" industryStepState
    ⟨some "demo_awaiting_industry", [], "c0", "t0"⟩ (by rfl) (by rfl) (by rfl) (by rfl)

/-- Claim C8: at the contact method step every input yields the completed
confirmation (never a failure), rendering `contactInfoFor` of the normalized
input; `email`, `phone` and `both` map to their fixed contact strings and any
other input falls back to the email rendering. -/
theorem contact_method_step (uuid now input sid : String) (st : OrchState) (sess : Session)
    (hs : lookupSession st.sessions sid = some sess)
    (hstate : sess.state = some "contact_awaiting_method") :
    (handle_contact_flow uuid now input sid st).1 =
      .val { type := "transaction", flow := some "contact",
             response := "✅ **Contact Request Received!**\n\nReference ID: **" ++ pySlice8Upper uuid ++
               "**\n\nYou can also reach us directly at:\n" ++ contactInfoFor (pyLower (pyStrip input)),
             action := some "contact_submitted",
             ticket_id := some (pySlice8Upper uuid),
             flowData := some sess.data,
             rich_payload := some { buttons :=
               [{ label := "🌐 Visit Website", action := "open_link",
                  url := some "https://www.instalogic.in/contact-us/" },
                { label := "📋 View Services", action := "open_link",
                  url := some "https://www.instalogic.in/our-services/" }] },
             metadata := { step := some 3, total_steps := some 3, completed := true } } ∧
    contactInfoFor "email" = "📧 info@instalogic.in" ∧
    contactInfoFor "phone" = "📞 +91-XXX-XXX-XXXX" ∧
    contactInfoFor "both" = "📧 info@instalogic.in\n📞 +91-XXX-XXX-XXXX" ∧
    (∀ m : String, m ≠ "email" → m ≠ "phone" → m ≠ "both" →
      contactInfoFor m = "📧 info@instalogic.in") := by
  have hget : get_session now sid st.sessions = (sess, st.sessions) := get_session_of_lookup hs
  refine ⟨?_, rfl, rfl, rfl, ?_⟩
  · simp only [handle_contact_flow, hget, hstate,
      Option.some.injEq, reduceCtorEq, String.reduceEq, false_or, or_false, or_true, true_or,
      or_self, if_true, if_false]
  · intro m h1 h2 h3
    simp [contactInfoFor, h1, h2, h3]

/-- Witness for C8: the input `Both` (with odd spacing and casing) at a
concrete method-step session gives the completed confirmation with the
both-channels rendering. -/
theorem contact_method_step_witness :
    (handle_contact_flow "u" "t1" " Both " "s"
        ⟨[("s", ⟨some "contact_awaiting_method", [("name", "Jane")], "c0", "t0"⟩)], []⟩).1 =
      .val { type := "transaction", flow := some "contact",
             response := "✅ **Contact Request Received!**\n\nReference ID: **" ++ pySlice8Upper "u" ++
               "**\n\nYou can also reach us directly at:\n" ++ contactInfoFor (pyLower (pyStrip " Both ")),
             action := some "contact_submitted",
             ticket_id := some (pySlice8Upper "u"),
             flowData := some [("name", "Jane")],
             rich_payload := some { buttons :=
               [{ label := "🌐 Visit Website", action := "open_link",
                  url := some "https://www.instalogic.in/contact-us/" },
                { label := "📋 View Services", action := "open_link",
                  url := some "https://www.instalogic.in/our-services/" }] },
             metadata := { step := some 3, total_steps := some 3, completed := true } } ∧
    contactInfoFor "email" = "📧 info@instalogic.in" ∧
    contactInfoFor "phone" = "📞 +91-XXX-XXX-XXXX" ∧
    contactInfoFor "both" = "📧 info@instalogic.in\n📞 +91-XXX-XXX-XXXX" ∧
    (∀ m : String, m ≠ "email" → m ≠ "phone" → m ≠ "both" →
      contactInfoFor m = "📧 info@instalogic.in") :=
  contact_method_step "u" "t1" " Both " "s" _
    ⟨some "contact_awaiting_method", [("name", "Jane")], "c0", "t0"⟩ (by rfl) (by rfl)

/-- Claim C7: the enricher never returns more than 4 buttons (truncation in
insertion order), and whenever the lower-cased concatenation of query and
answer contains both "hiring" and "resume", the output opens with the careers
button pair and carries a non-null supplementary message. -/
theorem enrich_cap_and_careers (ans q : String) :
    (enrich_response ans q).buttons.length ≤ 4 ∧
    (containsSub "hiring" (pyLower (q ++ " " ++ ans)) = true →
     containsSub "resume" (pyLower (q ++ " " ++ ans)) = true →
      (enrich_response ans q).buttons.take 2 = careersButtons ∧
      (enrich_response ans q).additional_message ≠ none) := by
  constructor
  · simp only [enrich_response]
    rw [List.length_take]
    exact min_le_left _ _
  · intro hh _hr
    have hpred : (["job", "career", "hiring", "apply", "resume", "position", "opening",
        "work at"].any (fun kw => containsSub kw (pyLower (q ++ " " ++ ans)))) = true := by
      simp [List.any, hh]
    have hc : (detectTopics (pyLower (q ++ " " ++ ans))).contains "careers" = true := by
      simp [detectTopics, topic_keywords, List.filter_cons, hpred]
    constructor
    · simp only [enrich_response, enrichButtons, hc, if_true, careersButtons,
        List.append_assoc, List.cons_append, List.nil_append, List.isEmpty_cons,
        Bool.false_eq_true, if_false]
      rw [List.take_take]
      rfl
    · simp only [enrich_response, hc, if_true]
      exact fun h => Option.noConfusion h

/-- Witness for C7 on a hiring/resume answer: the careers buttons come first
and the supplementary message is present. -/
theorem enrich_cap_and_careers_witness :
    (enrich_response "We are hiring, send us your resume." "any openings?").buttons.length ≤ 4 ∧
    ((enrich_response "We are hiring, send us your resume." "any openings?").buttons.take 2 =
      careersButtons ∧
     (enrich_response "We are hiring, send us your resume." "any openings?").additional_message ≠
      none) :=
  ⟨(enrich_cap_and_careers "We are hiring, send us your resume." "any openings?").1,
   (enrich_cap_and_careers "We are hiring, send us your resume." "any openings?").2
     (by decide) (by decide)⟩

/-- Claim C3: for any message whose normalized text matches a handoff pattern,
routing returns the handoff discriminant regardless of the current session
state — the check precedes flow continuation, intent detection, and the
knowledge fallback — and, if the session exists, resets its state to idle and
its fields to empty as a side effect. -/
theorem handoff_priority (uuid now kbResp query sid : String) (st : OrchState)
    (h : detect_handoff (pyStrip (pyLower query)) = true) :
    (∃ r, (handle_user_query uuid now kbResp query sid st).1 = .val r ∧ r.type = "handoff") ∧
    ∀ s, lookupSession st.sessions sid = some s →
      lookupSession (handle_user_query uuid now kbResp query sid st).2.sessions sid =
        some { s with state := none, data := [] } := by
  simp only [handle_user_query, h, if_true]
  constructor
  · exact ⟨_, rfl, rfl⟩
  · intro s hs
    exact lookup_clear_self hs

/-- Witness for C3: the literal query `escalate` in the middle of a demo flow
is escalated and the session is wiped. -/
theorem handoff_priority_witness :
    (∃ r, (handle_user_query "u" "t1" "kb" "escalate" "s"
        ⟨[("s", ⟨some "demo_awaiting_email", [("name", "J")], "c0", "t0"⟩)], []⟩).1 = .val r ∧
      r.type = "handoff") ∧
    ∀ s, lookupSession [("s", ⟨some "demo_awaiting_email", [("name", "J")], "c0", "t0"⟩)] "s" =
        some s →
      lookupSession (handle_user_query "u" "t1" "kb" "escalate" "s"
          ⟨[("s", ⟨some "demo_awaiting_email", [("name", "J")], "c0", "t0"⟩)], []⟩).2.sessions "s" =
        some { s with state := none, data := [] } :=
  handoff_priority "u" "t1" "kb" "escalate" "s"
    ⟨[("s", ⟨some "demo_awaiting_email", [("name", "J")], "c0", "t0"⟩)], []⟩ (by decide)

/-- A session carrying the career prefix with a step tag the career handler
does not recognize. -/
def careerBogusState : OrchState :=
  ⟨[("s", ⟨some "career_bogus", [], "c0", "t0"⟩)], []⟩

/-- Counterexample to C2 as stated: invoked on a `career_`-prefixed tag it does
not recognize, `handle_career_flow` returns no response at all (Python falls
off the end of the function and returns `None`) instead of a recoverable-error
response. -/
theorem career_unrecognized_counterexample :
    (handle_career_flow "u" "t1" "hello" "s" careerBogusState).1 = .noneRet := rfl

/-- The demo handler's generic fallback response. -/
def demoFallback : Response :=
  { type := "error",
    response := "I\x27m sorry, something went wrong with the demo request. Let\x27s start over. Would you like to request a demo?",
    rich_payload := some { buttons :=
      [{ label := "🎯 Start Demo Request", action := "start_demo_flow" },
       { label := "❌ Cancel", action := "cancel_flow" }] } }

/-- Claim C2 (amended): only the demo handler returns the generic
recoverable-error fallback on an unrecognized state tag carrying its prefix
(leaving the state untouched); the career, RFP and contact handlers return no
response (`None`) on unrecognized tags carrying their prefixes. -/
theorem flow_unrecognized_fallback (uuid now query sid : String) (st : OrchState) (sess : Session)
    (hs : lookupSession st.sessions sid = some sess) :
    (∀ t, sess.state = some t → pyStartsWith t "demo_" = true →
      t ∉ (["demo_start", "demo_awaiting_industry", "demo_awaiting_custom_industry",
            "demo_awaiting_name", "demo_awaiting_email", "demo_awaiting_phone",
            "demo_awaiting_referral", "demo_awaiting_custom_referral",
            "demo_awaiting_date"] : List String) →
      (handle_demo_flow uuid now query sid st).1 = demoFallback ∧
      (handle_demo_flow uuid now query sid st).2 = st) ∧
    (∀ t, sess.state = some t → pyStartsWith t "career_" = true →
      t ∉ (["career_awaiting_name", "career_awaiting_email",
            "career_awaiting_position"] : List String) →
      (handle_career_flow uuid now query sid st).1 = .noneRet) ∧
    (∀ t, sess.state = some t → pyStartsWith t "rfp_" = true →
      t ∉ (["rfp_awaiting_company", "rfp_awaiting_contact",
            "rfp_awaiting_brief"] : List String) →
      (handle_rfp_flow uuid now query sid st).1 = .noneRet) ∧
    (∀ t, sess.state = some t → pyStartsWith t "contact_" = true →
      t ∉ (["contact_awaiting_name", "contact_awaiting_method"] : List String) →
      (handle_contact_flow uuid now query sid st).1 = .noneRet) := by
  have hget : get_session now sid st.sessions = (sess, st.sessions) := get_session_of_lookup hs
  refine ⟨?_, ?_, ?_, ?_⟩
  · intro t hstate _hpre hnot
    simp only [List.mem_cons, List.not_mem_nil, or_false, not_or] at hnot
    obtain ⟨h1, h2, h3, h4, h5, h6, h7, h8, h9⟩ := hnot
    simp only [handle_demo_flow, hget, hstate, demoFallback,
      Option.some.injEq, reduceCtorEq, h1, h2, h3, h4, h5, h6, h7, h8, h9,
      false_or, or_false, or_self, if_true, if_false]
    constructor <;> trivial
  · intro t hstate _hpre hnot
    simp only [List.mem_cons, List.not_mem_nil, or_false, not_or] at hnot
    obtain ⟨h1, h2, h3⟩ := hnot
    simp only [handle_career_flow, hget, hstate,
      Option.some.injEq, reduceCtorEq, h1, h2, h3,
      false_or, or_false, or_self, if_true, if_false]
  · intro t hstate _hpre hnot
    simp only [List.mem_cons, List.not_mem_nil, or_false, not_or] at hnot
    obtain ⟨h1, h2, h3⟩ := hnot
    simp only [handle_rfp_flow, hget, hstate,
      Option.some.injEq, reduceCtorEq, h1, h2, h3,
      false_or, or_false, or_self, if_true, if_false]
  · intro t hstate _hpre hnot
    simp only [List.mem_cons, List.not_mem_nil, or_false, not_or] at hnot
    obtain ⟨h1, h2⟩ := hnot
    simp only [handle_contact_flow, hget, hstate,
      Option.some.injEq, reduceCtorEq, h1, h2,
      false_or, or_false, or_self, if_true, if_false]

/-- Witness for the amended C2: one inconsistent session per flow. -/
theorem flow_unrecognized_fallback_witness :
    ((handle_demo_flow "u" "t1" "x" "s" ⟨[("s", ⟨some "demo_bogus", [], "c0", "t0"⟩)], []⟩).1 =
      demoFallback ∧
     (handle_demo_flow "u" "t1" "x" "s" ⟨[("s", ⟨some "demo_bogus", [], "c0", "t0"⟩)], []⟩).2 =
      ⟨[("s", ⟨some "demo_bogus", [], "c0", "t0"⟩)], []⟩) ∧
    (handle_career_flow "u" "t1" "x" "s" ⟨[("s", ⟨some "career_oops", [], "c0", "t0"⟩)], []⟩).1 =
      .noneRet ∧
    (handle_rfp_flow "u" "t1" "x" "s" ⟨[("s", ⟨some "rfp_oops", [], "c0", "t0"⟩)], []⟩).1 =
      .noneRet ∧
    (handle_contact_flow "u" "t1" "x" "s" ⟨[("s", ⟨some "contact_oops", [], "c0", "t0"⟩)], []⟩).1 =
      .noneRet :=
  ⟨(flow_unrecognized_fallback "u" "t1" "x" "s" _ ⟨some "demo_bogus", [], "c0", "t0"⟩ (by rfl)).1
      "demo_bogus" rfl (by decide) (by decide),
   (flow_unrecognized_fallback "u" "t1" "x" "s" _ ⟨some "career_oops", [], "c0", "t0"⟩ (by rfl)).2.1
      "career_oops" rfl (by decide) (by decide),
   (flow_unrecognized_fallback "u" "t1" "x" "s" _ ⟨some "rfp_oops", [], "c0", "t0"⟩ (by rfl)).2.2.1
      "rfp_oops" rfl (by decide) (by decide),
   (flow_unrecognized_fallback "u" "t1" "x" "s" _ ⟨some "contact_oops", [], "c0", "t0"⟩ (by rfl)).2.2.2
      "contact_oops" rfl (by decide) (by decide)⟩

/-- A fixed 36-character uuid for concrete runs. -/
def uuidW : String := "abcdef12-3456-7890-abcd-ef1234567890"

/-- Router inputs driving the career flow up to the position step. -/
def careerCalls3 : List QueryCall :=
  [⟨uuidW, "t1", "kb", "are you hiring", "c"⟩, ⟨uuidW, "t2", "kb", "Jane", "c"⟩,
   ⟨uuidW, "t3", "kb", "jane@co.com", "c"⟩]

/-- Router inputs driving the contact flow up to the method step. -/
def contactCalls2 : List QueryCall :=
  [⟨uuidW, "t1", "kb", "get in touch", "k"⟩, ⟨uuidW, "t2", "kb", "Jane", "k"⟩]

/-- Whether a handler outcome is a returned dictionary marked completed. -/
def retCompleted : PyRet → Bool
  | .val r => r.metadata.completed
  | _ => false

/-- Claim C1, evaluated on the code at its failing inputs: completing the
career flow raises `AttributeError` (the orchestrator calls
`database_service.format_career_lead`, which `DatabaseService` does not
define) and persists nothing; completing the contact flow returns a completed
confirmation yet persists no lead; while the demo flow and a handoff each
persist exactly one lead of the right kind. The RFP flow fails like the career
flow (`format_rfp_lead` is missing as well). -/
theorem lead_persistence_code_eval :
    (handle_user_query uuidW "t4" "kb" "Data Analyst" "c" (runQueries careerCalls3 initState)).1 =
      .exn "AttributeError: \x27DatabaseService\x27 object has no attribute \x27format_career_lead\x27" ∧
    (handle_user_query uuidW "t4" "kb" "Data Analyst" "c"
      (runQueries careerCalls3 initState)).2.leads = [] ∧
    retCompleted (handle_user_query uuidW "t3" "kb" "both" "k"
      (runQueries contactCalls2 initState)).1 = true ∧
    (handle_user_query uuidW "t3" "kb" "both" "k"
      (runQueries contactCalls2 initState)).2.leads = [] ∧
    (runDemoFlow uuidW "t0" "s1" demoInputs initState).2.leads.map (fun l => l.type) =
      ["DEMO_REQUEST"] ∧
    (handle_user_query uuidW "t9" "kb" "escalate" "h" initState).2.leads.map (fun l => l.type) =
      ["HUMAN_HANDOFF"] := by
  refine ⟨rfl, rfl, rfl, rfl, ?_, rfl⟩
  rw [runDemo_eq]
  rfl

/-! ## The router's state-tag invariant (C10) -/

/-- The sixteen literal step tags the four flow handlers ever write:
eight `demo_*`, three `career_*`, three `rfp_*`, two `contact_*`. -/
def validTags : List String :=
  ["demo_awaiting_industry", "demo_awaiting_custom_industry", "demo_awaiting_name",
   "demo_awaiting_email", "demo_awaiting_phone", "demo_awaiting_referral",
   "demo_awaiting_custom_referral", "demo_awaiting_date",
   "career_awaiting_name", "career_awaiting_email", "career_awaiting_position",
   "rfp_awaiting_company", "rfp_awaiting_contact", "rfp_awaiting_brief",
   "contact_awaiting_name", "contact_awaiting_method"]

/-- A session state is idle or one of the sixteen written tags. -/
def stateOKb : Option String → Bool
  | none => true
  | some t => validTags.contains t

/-- Every session in the store has an idle or valid state. -/
def SessionsInv (l : Sessions) : Prop := ∀ p ∈ l, stateOKb p.2.state = true

theorem sessionsInv_get (now sid : String) {l : Sessions} (h : SessionsInv l) :
    SessionsInv (get_session now sid l).2 := by
  unfold get_session
  split
  · exact h
  · intro p hp
    rcases List.mem_append.1 hp with hp | hp
    · exact h p hp
    · rw [List.mem_singleton.1 hp]
      rfl

theorem lookup_stateOK {l : Sessions} {sid : String} {s : Session} (h : SessionsInv l)
    (hl : lookupSession l sid = some s) : stateOKb s.state = true := by
  induction l with
  | nil => simp [lookupSession] at hl
  | cons p rest ih =>
    by_cases hp : (p.1 == sid) = true
    · rw [lookupSession, if_pos hp] at hl
      cases hl
      exact h p (by simp)
    · rw [lookupSession, if_neg hp] at hl
      exact ih (fun q hq => h q (List.mem_cons_of_mem p hq)) hl

theorem get_fst_stateOK (now sid : String) {l : Sessions} (h : SessionsInv l) :
    stateOKb (get_session now sid l).1.state = true := by
  unfold get_session
  split
  · next s heq => exact lookup_stateOK h heq
  · rfl

theorem sessionsInv_set {l : Sessions} {sid : String} {s : Session} (h : SessionsInv l)
    (hs : stateOKb s.state = true) : SessionsInv (setSession l sid s) := by
  induction l with
  | nil => intro p hp; cases hp
  | cons q rest ih =>
    intro p hp
    rw [setSession] at hp
    rcases List.mem_cons.1 hp with hp | hp
    · rw [hp]
      by_cases hq : (q.1 == sid) = true
      · rw [if_pos hq]; exact hs
      · rw [if_neg hq]; exact h q (by simp)
    · exact ih (fun r hr => h r (List.mem_cons_of_mem q hr)) p hp

theorem sessionsInv_update (now sid tag : String) (d : Fields) {l : Sessions}
    (h : SessionsInv l) (ht : stateOKb (some tag) = true) :
    SessionsInv (update_session now sid tag d l) := by
  unfold update_session
  exact sessionsInv_set (sessionsInv_get now sid h) ht

theorem sessionsInv_clear (sid : String) {l : Sessions} (h : SessionsInv l) :
    SessionsInv (clear_session_state sid l) := by
  induction l with
  | nil => intro p hp; cases hp
  | cons q rest ih =>
    intro p hp
    rw [clear_session_state] at hp
    rcases List.mem_cons.1 hp with hp | hp
    · rw [hp]
      by_cases hq : (q.1 == sid) = true
      · rw [if_pos hq]; rfl
      · rw [if_neg hq]; exact h q (by simp)
    · exact ih (fun r hr => h r (List.mem_cons_of_mem q hr)) p hp

theorem demo_flow_inv (uuid now query sid : String) (st : OrchState)
    (h : SessionsInv st.sessions) :
    SessionsInv (handle_demo_flow uuid now query sid st).2.sessions := by
  unfold handle_demo_flow
  split
  next session sessions0 heq =>
  have h0 : SessionsInv sessions0 := by
    have hg := sessionsInv_get now sid h
    rw [heq] at hg
    exact hg
  have h1 : stateOKb session.state = true := by
    have hg := get_fst_stateOK now sid h
    rw [heq] at hg
    exact hg
  by_cases c1 : session.state = none ∨ session.state = some "demo_start"
  · rw [if_pos c1]; exact sessionsInv_update now sid _ _ h0 (by decide)
  rw [if_neg c1]
  by_cases c2 : session.state = some "demo_awaiting_industry"
  · rw [if_pos c2]
    by_cases c2b : otherSelected (pyStrip query) = true
    · rw [if_pos c2b]; exact sessionsInv_update now sid _ _ h0 (by decide)
    · rw [if_neg c2b]; exact sessionsInv_update now sid _ _ h0 (by decide)
  rw [if_neg c2]
  by_cases c3 : session.state = some "demo_awaiting_custom_industry"
  · rw [if_pos c3]; exact sessionsInv_update now sid _ _ h0 (by decide)
  rw [if_neg c3]
  by_cases c4 : session.state = some "demo_awaiting_name"
  · rw [if_pos c4]; exact sessionsInv_update now sid _ _ h0 (by decide)
  rw [if_neg c4]
  by_cases c5 : session.state = some "demo_awaiting_email"
  · rw [if_pos c5]
    by_cases c5b : (!(containsSub "@" (pyStrip query)) || !(containsSub "." (pyStrip query))) = true
    · rw [if_pos c5b]; exact h0
    · rw [if_neg c5b]; exact sessionsInv_update now sid _ _ h0 (by decide)
  rw [if_neg c5]
  by_cases c6 : session.state = some "demo_awaiting_phone"
  · rw [if_pos c6]; exact sessionsInv_update now sid _ _ h0 (by decide)
  rw [if_neg c6]
  by_cases c7 : session.state = some "demo_awaiting_referral"
  · rw [if_pos c7]
    by_cases c7b : otherSelected (pyStrip query) = true
    · rw [if_pos c7b]; exact sessionsInv_update now sid _ _ h0 (by decide)
    · rw [if_neg c7b]; exact sessionsInv_update now sid _ _ h0 (by decide)
  rw [if_neg c7]
  by_cases c8 : session.state = some "demo_awaiting_custom_referral"
  · rw [if_pos c8]; exact sessionsInv_update now sid _ _ h0 (by decide)
  rw [if_neg c8]
  by_cases c9 : session.state = some "demo_awaiting_date"
  · rw [if_pos c9]; exact sessionsInv_clear sid (sessionsInv_set h0 h1)
  rw [if_neg c9]
  exact h0

theorem career_flow_inv (uuid now query sid : String) (st : OrchState)
    (h : SessionsInv st.sessions) :
    SessionsInv (handle_career_flow uuid now query sid st).2.sessions := by
  simp only [handle_career_flow]
  repeat' split
  all_goals
    first
      | exact sessionsInv_update now sid _ _ (sessionsInv_get now sid h) (by decide)
      | exact sessionsInv_set (sessionsInv_get now sid h) (get_fst_stateOK now sid h)
      | exact sessionsInv_clear sid
          (sessionsInv_set (sessionsInv_get now sid h) (get_fst_stateOK now sid h))
      | exact sessionsInv_get now sid h

theorem rfp_flow_inv (uuid now query sid : String) (st : OrchState)
    (h : SessionsInv st.sessions) :
    SessionsInv (handle_rfp_flow uuid now query sid st).2.sessions := by
  simp only [handle_rfp_flow]
  repeat' split
  all_goals
    first
      | exact sessionsInv_update now sid _ _ (sessionsInv_get now sid h) (by decide)
      | exact sessionsInv_set (sessionsInv_get now sid h) (get_fst_stateOK now sid h)
      | exact sessionsInv_clear sid
          (sessionsInv_set (sessionsInv_get now sid h) (get_fst_stateOK now sid h))
      | exact sessionsInv_get now sid h

theorem contact_flow_inv (uuid now query sid : String) (st : OrchState)
    (h : SessionsInv st.sessions) :
    SessionsInv (handle_contact_flow uuid now query sid st).2.sessions := by
  simp only [handle_contact_flow]
  repeat' split
  all_goals
    first
      | exact sessionsInv_update now sid _ _ (sessionsInv_get now sid h) (by decide)
      | exact sessionsInv_clear sid (sessionsInv_get now sid h)
      | exact sessionsInv_get now sid h

theorem escalate_inv (uuid query sid : String) (st : OrchState)
    (h : SessionsInv st.sessions) :
    SessionsInv (escalate_to_human uuid query sid st).2.sessions := by
  simp only [escalate_to_human]
  exact sessionsInv_clear sid h

theorem dispatch_inv (uuid now kbResp query ql sid : String) (st : OrchState)
    (h : SessionsInv st.sessions) :
    SessionsInv (dispatch_intent uuid now kbResp query ql sid st).2.sessions := by
  simp only [dispatch_intent]
  split
  · exact demo_flow_inv uuid now query sid st h
  · exact career_flow_inv uuid now query sid st h
  · exact rfp_flow_inv uuid now query sid st h
  · exact contact_flow_inv uuid now query sid st h
  · exact h

theorem handle_user_query_inv (uuid now kbResp query sid : String) (st : OrchState)
    (h : SessionsInv st.sessions) :
    SessionsInv (handle_user_query uuid now kbResp query sid st).2.sessions := by
  simp only [handle_user_query]
  split
  · exact escalate_inv uuid query sid st h
  · split
    · repeat' split
      all_goals
        first
          | exact demo_flow_inv uuid now query sid _ (sessionsInv_get now sid h)
          | exact career_flow_inv uuid now query sid _ (sessionsInv_get now sid h)
          | exact rfp_flow_inv uuid now query sid _ (sessionsInv_get now sid h)
          | exact contact_flow_inv uuid now query sid _ (sessionsInv_get now sid h)
          | exact dispatch_inv uuid now kbResp query _ sid _ (sessionsInv_get now sid h)
    · exact dispatch_inv uuid now kbResp query _ sid _ (sessionsInv_get now sid h)

theorem runQueries_inv (calls : List QueryCall) (st : OrchState)
    (h : SessionsInv st.sessions) : SessionsInv (runQueries calls st).sessions := by
  induction calls generalizing st with
  | nil => exact h
  | cons c rest ih =>
    exact ih _ (handle_user_query_inv c.uuid c.now c.kbResp c.query c.sid st h)

theorem validTags_prefixes : ∀ t ∈ validTags,
    pyStartsWith t "demo_" = true ∨ pyStartsWith t "career_" = true ∨
    pyStartsWith t "rfp_" = true ∨ pyStartsWith t "contact_" = true := by decide

/-- Claim C10: after any sequence of router calls from the initial empty store,
every stored session is idle or carries one of the sixteen literal step tags
written by the four flow handlers; each such tag begins with one of the four
flow prefixes, so prefix dispatch reaches the flow that wrote it. -/
theorem router_state_invariant (calls : List QueryCall) (sid : String) (s : Session)
    (hmem : lookupSession (runQueries calls initState).sessions sid = some s) :
    s.state = none ∨ ∃ t, s.state = some t ∧ t ∈ validTags ∧
      (pyStartsWith t "demo_" = true ∨ pyStartsWith t "career_" = true ∨
       pyStartsWith t "rfp_" = true ∨ pyStartsWith t "contact_" = true) := by
  have hinv : SessionsInv (runQueries calls initState).sessions :=
    runQueries_inv calls initState (fun p hp => absurd hp (List.not_mem_nil p))
  have hok := lookup_stateOK hinv hmem
  cases hstate : s.state with
  | none => exact Or.inl rfl
  | some t =>
    rw [hstate] at hok
    have hmemTag : t ∈ validTags := by simpa [stateOKb] using hok
    exact Or.inr ⟨t, rfl, hmemTag, validTags_prefixes t hmemTag⟩

/-- Witness for C10: after one demo-opening call, the stored session carries
`demo_awaiting_industry`, which is a valid, `demo_`-prefixed tag. -/
theorem router_state_invariant_witness :
    (⟨some "demo_awaiting_industry", [], "t1", "t1"⟩ : Session).state = none ∨
    ∃ t, (⟨some "demo_awaiting_industry", [], "t1", "t1"⟩ : Session).state = some t ∧
      t ∈ validTags ∧
      (pyStartsWith t "demo_" = true ∨ pyStartsWith t "career_" = true ∨
       pyStartsWith t "rfp_" = true ∨ pyStartsWith t "contact_" = true) :=
  router_state_invariant [⟨uuidW, "t1", "kb", "book a demo", "s1"⟩] "s1"
    ⟨some "demo_awaiting_industry", [], "t1", "t1"⟩ (by rfl)

end Insta
